import Mathlib

/-!
Shallow embedding of the MLOPS_Lab5_Streamlit repository:
the batch-negotiation client in `src/frontend/Dashboard.py`
(`try_batch_with_fallback`, `normalize_uploaded_json`) and the FastAPI
inference service in `src/Backend/src/main.py` / `src/Backend/src/predict.py`.

JSON values are modelled by the inductive `Json`; Python floats used for
elapsed-time accounting are modelled by `ℚ`; a network call either raises
(transport failure / timeout) or yields an HTTP response, modelled by
`CallResult`.  The environment (the remote endpoint reached by
`requests.post`) is a function from the JSON payload sent to a `CallResult`.
-/

/-- A JSON value (the payloads and bodies moved between client and server).
Numbers are modelled by `ℚ` (covering Python ints and floats). -/
inductive Json where
  | null : Json
  | bool (b : Bool) : Json
  | num (q : ℚ) : Json
  | str (s : String) : Json
  | arr (elts : List Json) : Json
  | obj (fields : List (String × Json)) : Json

/-- First-match association lookup, modelling Python `d[k]` / `k in d` on a
parsed-JSON dict (parsed JSON objects have no duplicate keys, so first match
is exact). -/
def jlookup (name : String) : List (String × Json) → Option Json
  | [] => none
  | (k, v) :: rest => if k = name then some v else jlookup name rest

/-- Whether the first character list starts the second one. -/
def leadsWith : List Char → List Char → Bool
  | [], _ => true
  | _ :: _, [] => false
  | p :: ps, c :: cs => p == c && leadsWith ps cs

/-- Whether the first character list occurs inside the second one. -/
def subsearch : List Char → List Char → Bool
  | pat, [] => leadsWith pat []
  | pat, c :: cs => leadsWith pat (c :: cs) || subsearch pat cs

/-- Python's `pat in s` substring test: some suffix of `s` starts with
`pat` (and the empty pattern is in every string). -/
def containsSub (s pat : String) : Bool := subsearch pat.data s.data

mutual
/-- Python `str()` of a parsed-JSON value, used by the dashboard in
`str(d["msg"])`.  On strings (the case every claim exercises) it is the
identity, as in Python; containers are rendered recursively (modulo the
quoting Python's `repr` adds around nested strings, which no claim's
substring test can distinguish for the fixed pattern). -/
def pyStr : Json → String
  | .null => "None"
  | .bool true => "True"
  | .bool false => "False"
  | .num q => toString q
  | .str s => s
  | .arr l => "[" ++ String.intercalate ", " (pyStrList l) ++ "]"
  | .obj l => "\x7b" ++ String.intercalate ", " (pyStrFields l) ++ "\x7d"

/-- Renders the elements of a JSON array, for `pyStr`. -/
def pyStrList : List Json → List String
  | [] => []
  | j :: js => pyStr j :: pyStrList js

/-- Renders the fields of a JSON object, for `pyStr`. -/
def pyStrFields : List (String × Json) → List String
  | [] => []
  | (k, v) :: fs => (k ++ ": " ++ pyStr v) :: pyStrFields fs
end

/-- The substring of the server's validation-error message that
`try_batch_with_fallback` sniffs for (Dashboard.py line 74). -/
def objectExpectedPat : String := "dictionary or object"

/-- An HTTP response as the dashboard observes it: `status_code`, raw
`text`, and the result of `resp.json()` (`Except` models the decode
raising). -/
structure PyResponse where
  statusCode : Nat
  text : String
  jsonBody : Except String Json

/-- Outcome of one `call_api` round trip.  `exn` models `requests.post`
raising (connection failure / timeout): the wall-clock time the failed call
consumed is recorded for specification purposes but is invisible to the
code, since `call_api` raises before returning `elapsed`.  `resp` models a
response received after `elapsed` seconds. -/
inductive CallResult where
  | exn (msg : String) (elapsed : ℚ) : CallResult
  | resp (r : PyResponse) (elapsed : ℚ) : CallResult

/-- The remote endpoint: what one `requests.post` of a given JSON payload
returns.  Deterministic per payload, which suffices for every claim. -/
def Api := Json → CallResult

/-- One entry of Dashboard.py's error-detail scan (line 74):
`isinstance(d, dict) and "msg" in d and "dictionary or object" in str(d["msg"])`. -/
def detailEntryMatches : Json → Bool
  | .obj fields =>
      match jlookup "msg" fields with
      | some m => containsSub (pyStr m) objectExpectedPat
      | none => false
  | _ => false

/-- Dashboard.py lines 67–78: decide `should_fallback` from the decoded
422 body.  `err.get("detail", [])` needs `err` to be a dict (otherwise the
`except` clause fires and `should_fallback` stays `False`); the `for d in
detail` scan finds a matching dict entry only when `detail` is a list
(iterating a string yields characters, a dict yields string keys, any
non-iterable raises into the same `except`). -/
def shouldFallback (body : Except String Json) : Bool :=
  match body with
  | .error _ => false
  | .ok (.obj fields) =>
      match jlookup "detail" fields with
      | some (.arr l) => l.any detailEntryMatches
      | _ => false
  | .ok _ => false

/-- Dashboard.py lines 59–63 / 91–95: the JSON body of a 200 response, or
`{"raw_text": resp.text}` when `resp.json()` raises. -/
def successBody (r : PyResponse) : Json :=
  match r.jsonBody with
  | .ok j => j
  | .error _ => .obj [("raw_text", .str r.text)]

/-- Dashboard.py lines 105–108: the payload of a non-fallback error return,
`resp.json()` or, when that raises, `resp.text` (the argument is always a
`requests.Response` here, so the `str(resp)` alternative never fires). -/
def errorPayload (r : PyResponse) : Json :=
  match r.jsonBody with
  | .ok j => j
  | .error _ => .str r.text

/-- Dashboard.py lines 83–101, one iteration of the fallback loop: the
aggregated entry for record `rec` given the outcome of its `call_api`,
paired with the elapsed time added to `elapsed_total` (a raised call adds
nothing: the exception fires before `single_elapsed` is assigned). -/
def itemEntry (rec : Json) : CallResult → Json × ℚ
  | .exn e _ =>
      (.obj [("error", .str ("Request failed: " ++ e)), ("input", rec)], 0)
  | .resp r el =>
      if r.statusCode = 200 then
        (successBody r, el)
      else
        match r.jsonBody with
        | .ok j => (.obj [("error", j), ("status", .num r.statusCode)], el)
        | .error _ =>
            (.obj [("error", .str r.text), ("status", .num r.statusCode)], el)

/-- What `try_batch_with_fallback` returns — `(success, result, elapsed)` —
plus, as instrumentation, the ordered list of payloads it posted. -/
structure BatchOutcome where
  success : Bool
  result : Json
  elapsed : ℚ
  calls : List Json

/-- Dashboard.py lines 39–108, `try_batch_with_fallback(endpoint, records)`:
post the whole list once; on 200 return its body as success; on 422 whose
detail carries the object-expected signature, post each record once in
order and aggregate `itemEntry` results as success; otherwise return
failure with the received payload.  `calls` records each payload posted. -/
def try_batch_with_fallback (api : Api) (records : List Json) : BatchOutcome :=
  match api (.arr records) with
  | .exn e _ =>
      { success := false, result := .str ("Request failed: " ++ e),
        elapsed := 0, calls := [.arr records] }
  | .resp r el =>
      if r.statusCode = 200 then
        { success := true, result := successBody r, elapsed := el,
          calls := [.arr records] }
      else if r.statusCode = 422 ∧ shouldFallback r.jsonBody then
        let agg := records.map fun rec => itemEntry rec (api rec)
        { success := true, result := .arr (agg.map Prod.fst),
          elapsed := el + (agg.map Prod.snd).sum,
          calls := .arr records :: records }
      else
        { success := false, result := errorPayload r, elapsed := el,
          calls := [.arr records] }

/-- Whether the batch attempt's outcome sends the code into the per-item
fallback loop (Dashboard.py lines 66–80): a response was received, its
status is 422, and its body carries the object-expected signature. -/
def fallbackTriggered (api : Api) (records : List Json) : Bool :=
  match api (.arr records) with
  | .exn _ _ => false
  | .resp r _ => r.statusCode ≠ 200 && r.statusCode = 422 && shouldFallback r.jsonBody

/-- The ground-truth wall-clock duration of a round trip, whether or not
the code got to observe it (it does not when `call_api` raises). -/
def trueElapsedOf : CallResult → ℚ
  | .exn _ e => e
  | .resp _ e => e

/-- Total wall-clock time of all round trips actually made by
`try_batch_with_fallback` — the quantity the spec's elapsed-time-accounting
sentence describes. -/
def totalWallClock (api : Api) (records : List Json) : ℚ :=
  (((try_batch_with_fallback api records).calls).map
    fun p => trueElapsedOf (api p)).sum

/-- The elapsed time the code can observe for one round trip: the measured
duration when a response came back, nothing when `call_api` raised. -/
def observedElapsedOf : CallResult → ℚ
  | .exn _ _ => 0
  | .resp _ e => e

/-- Dashboard.py lines 111–129, `normalize_uploaded_json`: a dict with a
list under `"input_batch"` yields that list; else a dict with a dict under
`"input"` yields that dict; else a dict is taken as the flat record; a
bare list is returned as is; anything else raises `ValueError`. -/
def normalize_uploaded_json (uploaded : Json) : Except String Json :=
  match uploaded with
  | .obj fields =>
      match jlookup "input_batch" fields with
      | some (.arr l) => .ok (.arr l)
      | _ =>
          match jlookup "input" fields with
          | some (.obj o) => .ok (.obj o)
          | _ => .ok (.obj fields)
  | .arr l => .ok (.arr l)
  | _ => .error "Uploaded JSON not recognized. Provide a dict or a list of dicts."

/-! ## Inference service: `src/Backend/src/main.py`, `src/Backend/src/predict.py` -/

/-- main.py lines 13–26: the 13 required numeric fields of the `WineData`
pydantic model, in declaration order. -/
def wineFieldNames : List String :=
  ["alcohol", "malic_acid", "ash", "alcalinity_of_ash", "magnesium",
   "total_phenols", "flavanoids", "nonflavanoid_phenols",
   "proanthocyanins", "color_intensity", "hue",
   "od280_od315_of_diluted_wines", "proline"]

/-- main.py lines 13–26: a decoded `WineData` record. -/
structure WineData where
  alcohol : ℚ
  malic_acid : ℚ
  ash : ℚ
  alcalinity_of_ash : ℚ
  magnesium : ℚ
  total_phenols : ℚ
  flavanoids : ℚ
  nonflavanoid_phenols : ℚ
  proanthocyanins : ℚ
  color_intensity : ℚ
  hue : ℚ
  od280_od315_of_diluted_wines : ℚ
  proline : ℚ

/-- One pydantic validation-error detail entry, keeping the parts clients
consume: the error location and the `msg` text. -/
structure ErrDetail where
  loc : List String
  msg : String

/-- A detail entry as it appears in the 422 JSON body. -/
def errDetailJson (e : ErrDetail) : Json :=
  .obj [("loc", .arr (e.loc.map Json.str)), ("msg", .str e.msg)]

/-- pydantic's message for a missing required field. -/
def requiredMsg : String := "Field required"

/-- pydantic's message for a field whose value is not numeric. -/
def numberMsg : String := "Input should be a valid number"

/-- pydantic's `model_attributes_type` message for a non-object body —
the exact signature quoted in Dashboard.py line 42 and sniffed for at
Dashboard.py line 74. -/
def objectExpectedMsg : String :=
  "Input should be a valid dictionary or object to extract fields from"

/-- The per-field validation errors of an object body: each declared field
must be present with a numeric value.  Undeclared extra keys are ignored —
pydantic's default `extra` policy for `BaseModel` (main.py declares no
stricter config).  JSON numbers are the accepted numeric form modelled
here; no claim exercises pydantic's additional lax string-to-float
coercion. -/
def fieldErrors (fields : List (String × Json)) : List ErrDetail :=
  wineFieldNames.filterMap fun n =>
    match jlookup n fields with
    | none => some ⟨["body", n], requiredMsg⟩
    | some (.num _) => none
    | some _ => some ⟨["body", n], numberMsg⟩

/-- The numeric value of a field known to be present and numeric (the
default branch is unreachable under `fieldErrors fields = []`). -/
def numField (fields : List (String × Json)) (n : String) : ℚ :=
  match jlookup n fields with
  | some (.num q) => q
  | _ => 0

/-- FastAPI/pydantic request-body validation of `WineData` (main.py lines
13–26 with the framework semantics both components rely on): a non-object
body — in particular a list — is rejected with `objectExpectedMsg`; an
object body is rejected with the accumulated per-field errors, or decoded.
-/
def validateWineBody (j : Json) : Except (List ErrDetail) WineData :=
  match j with
  | .obj fields =>
      match fieldErrors fields with
      | [] =>
          .ok { alcohol := numField fields "alcohol",
                malic_acid := numField fields "malic_acid",
                ash := numField fields "ash",
                alcalinity_of_ash := numField fields "alcalinity_of_ash",
                magnesium := numField fields "magnesium",
                total_phenols := numField fields "total_phenols",
                flavanoids := numField fields "flavanoids",
                nonflavanoid_phenols := numField fields "nonflavanoid_phenols",
                proanthocyanins := numField fields "proanthocyanins",
                color_intensity := numField fields "color_intensity",
                hue := numField fields "hue",
                od280_od315_of_diluted_wines :=
                  numField fields "od280_od315_of_diluted_wines",
                proline := numField fields "proline" }
      | e :: es => .error (e :: es)
  | _ => .error [⟨["body"], objectExpectedMsg⟩]

/-- main.py lines 49–63 / 80–94: the feature row handed to the model, in
declaration order. -/
def featuresOf (w : WineData) : List ℚ :=
  [w.alcohol, w.malic_acid, w.ash, w.alcalinity_of_ash, w.magnesium,
   w.total_phenols, w.flavanoids, w.nonflavanoid_phenols,
   w.proanthocyanins, w.color_intensity, w.hue,
   w.od280_od315_of_diluted_wines, w.proline]

/-- predict.py lines 15–19 and 43–47: the candidate model-artifact paths,
probed in order. -/
def possible_paths : List String :=
  ["model/wine_model.pkl", "../model/wine_model.pkl", "./wine_model.pkl"]

/-- predict.py lines 28 and 56: the `FileNotFoundError` message. -/
def modelNotFoundMsg : String :=
  "Wine model not found. Please run train.py first to create the model."

/-- Python's `IndexError` text, `str(e)` of an out-of-range list index. -/
def indexErrorMsg : String := "list index out of range"

/-- The serving environment.  `pathExists` is `os.path.exists`; the model
artifact is the black box spec §1 fixes as an external collaborator:
`runModel path X` is `joblib.load(path)` followed by `model.predict(X)`,
`runModelProba path X` additionally runs `model.predict_proba(X)`; an
`Except.error` is `str(e)` of any exception raised inside (predict.py lets
it propagate; main.py turns it into a 500).  A classifier predicts the
class indices it was trained on, which are non-negative, hence `Nat`
labels. -/
structure ServeEnv where
  pathExists : String → Bool
  runModel : String → List (List ℚ) → Except String (List Nat)
  runModelProba : String → List (List ℚ) →
    Except String (List Nat × List (List ℚ))

/-- predict.py lines 6–32, `predict_data(X)`: probe the candidate paths in
order; when none exists raise `FileNotFoundError(modelNotFoundMsg)`;
otherwise load the model from the first existing path and predict. -/
def predict_data (env : ServeEnv) (X : List (List ℚ)) :
    Except String (List Nat) :=
  match possible_paths.find? env.pathExists with
  | none => .error modelNotFoundMsg
  | some p => env.runModel p X

/-- Modelled from the spec: `get_target_names` lives in `src/data.py`,
which is not under src/ (main.py and predict.py import it).  Spec §3
describes it as the fixed ordered list of N class labels known to the
service; for this wine classifier N = 3 and the dashboard's `_map_class`
(Dashboard.py lines 270–275) parses the sklearn-style names
`class_0`, `class_1`, `class_2`. -/
def get_target_names : List String := ["class_0", "class_1", "class_2"]

/-- predict.py lines 64–71: the result dict of `predict_with_prob`. -/
structure ProbResult where
  prediction : Nat
  class_name : String
  probabilities : List (String × ℚ)

/-- predict.py lines 34–73, `predict_with_prob(X)`: probe paths as in
`predict_data`; run predict and predict_proba; build
`{prediction: int(y_pred[0]), class_name: target_names[y_pred[0]],
probabilities: {target_names[i]: prob for i, prob in enumerate(y_proba[0])}}`.
An out-of-range index (`y_pred` or `y_proba` empty, a predicted label with
no class name, a probability row longer than the label list) raises
`IndexError`. -/
def predict_with_prob (env : ServeEnv) (X : List (List ℚ)) :
    Except String ProbResult :=
  match possible_paths.find? env.pathExists with
  | none => .error modelNotFoundMsg
  | some p =>
      match env.runModelProba p X with
      | .error e => .error e
      | .ok (y_pred, y_proba) =>
          match y_pred.head?, y_proba.head? with
          | some p0, some row =>
              match get_target_names.get? p0 with
              | none => .error indexErrorMsg
              | some cn =>
                  if row.length ≤ get_target_names.length then
                    .ok ⟨p0, cn, get_target_names.zip row⟩
                  else
                    .error indexErrorMsg
          | _, _ => .error indexErrorMsg

/-- The 422 response body FastAPI builds from pydantic errors:
`{"detail": [...]}`. -/
def validationErrorBody (errs : List ErrDetail) : Json :=
  .obj [("detail", .arr (errs.map errDetailJson))]

/-- main.py lines 45–74, the `/predict` route: FastAPI validates the body
against `WineData` (422 on failure); the handler builds the feature row,
calls `predict_data`, resolves `target_names[prediction[0]]`, and returns
`{"prediction": ..., "class_name": ...}` with status 200; any exception in
the handler becomes `HTTPException(status_code=500, detail=str(e))`, whose
response body is `{"detail": str(e)}`. -/
def predict_endpoint (env : ServeEnv) (body : Json) : Nat × Json :=
  match validateWineBody body with
  | .error errs => (422, validationErrorBody errs)
  | .ok w =>
      match predict_data env [featuresOf w] with
      | .error e => (500, .obj [("detail", .str e)])
      | .ok y_pred =>
          match y_pred.head? with
          | none => (500, .obj [("detail", .str indexErrorMsg)])
          | some p0 =>
              match get_target_names.get? p0 with
              | none => (500, .obj [("detail", .str indexErrorMsg)])
              | some cn =>
                  (200, .obj [("prediction", .num p0), ("class_name", .str cn)])

/-- main.py lines 76–101, the `/predict-with-probability` route: same
validation and exception wrapping as `/predict`, body built from
`predict_with_prob`'s result dict. -/
def predict_with_probability_endpoint (env : ServeEnv) (body : Json) :
    Nat × Json :=
  match validateWineBody body with
  | .error errs => (422, validationErrorBody errs)
  | .ok w =>
      match predict_with_prob env [featuresOf w] with
      | .error e => (500, .obj [("detail", .str e)])
      | .ok r =>
          (200, .obj [("prediction", .num r.prediction),
                      ("class_name", .str r.class_name),
                      ("probabilities",
                        .obj (r.probabilities.map fun p => (p.1, Json.num p.2)))])

/-- The spec's reading of "decodes into exactly the 13 required numeric
fields" (spec §4.1: extra, missing and wrong-typed fields all rejected),
stated as the spec words it, for comparison with `validateWineBody`: the
body is an object whose key set is exactly `wineFieldNames`, every value
numeric. -/
def isExactly13NumericRecord : Json → Bool
  | .obj fields =>
      fields.all (fun p => wineFieldNames.contains p.1 &&
        match p.2 with | .num _ => true | _ => false) &&
      wineFieldNames.all fun n =>
        match jlookup n fields with
        | some (.num _) => true
        | _ => false
  | _ => false

/-! ## Concrete fixtures for witnesses and counterexamples -/

/-- A plain record payload. -/
def recA : Json := .obj [("id", .str "a")]

/-- A second plain record payload. -/
def recB : Json := .obj [("id", .str "b")]

/-- A record whose individual call will transport-fail under `apiMixed`. -/
def recT : Json := .obj [("id", .str "t")]

/-- A record whose individual call will return a 500 under `apiMixed`. -/
def recE : Json := .obj [("id", .str "e")]

/-- The 422 body the service sends for a list payload. -/
def sigDetailBody : Json := validationErrorBody [⟨["body"], objectExpectedMsg⟩]

/-- A 422 response carrying the object-expected signature. -/
def sigResp : PyResponse := ⟨422, "sig", .ok sigDetailBody⟩

/-- A successful per-record response body. -/
def okBody : Json := .obj [("prediction", .num 1), ("class_name", .str "class_1")]

/-- A 200 response with body `okBody`. -/
def okResp : PyResponse := ⟨200, "ok", .ok okBody⟩

/-- A 500 response for one record. -/
def err500Resp : PyResponse := ⟨500, "boom", .ok (.obj [("detail", .str "err")])⟩

/-- A 422 response whose detail does not carry the object-expected
signature. -/
def plain422Resp : PyResponse :=
  ⟨422, "other", .ok (.obj [("detail", .arr [.obj [("msg", .str requiredMsg)]])])⟩

/-- An endpoint that rejects the batch with the signature and accepts every
single record. -/
def apiReject : Api := fun p =>
  match p with
  | .arr _ => .resp sigResp 3
  | _ => .resp okResp 2

/-- An endpoint that rejects the batch with the signature; record `recT`
then transport-fails, record `recE` gets a 500, others succeed. -/
def apiMixed : Api := fun p =>
  match p with
  | .arr _ => .resp sigResp 3
  | .obj [("id", .str "t")] => .exn "timed out" 7
  | .obj [("id", .str "e")] => .resp err500Resp 4
  | _ => .resp okResp 2

/-- An endpoint that is unreachable: every call raises after 5 seconds. -/
def apiDown : Api := fun _ => .exn "connection refused" 5

/-- An endpoint answering 422 without the object-expected signature. -/
def api422NoSig : Api := fun _ => .resp plain422Resp 3

/-- A serving environment where the artifact loads and the model predicts
class 0 with certainty. -/
def envOk : ServeEnv :=
  { pathExists := fun _ => true,
    runModel := fun _ _ => .ok [0],
    runModelProba := fun _ _ => .ok ([0], [[1, 0, 0]]) }

/-- A serving environment where no candidate model path exists. -/
def envMissing : ServeEnv :=
  { pathExists := fun _ => false,
    runModel := fun _ _ => .ok [0],
    runModelProba := fun _ _ => .ok ([0], [[1, 0, 0]]) }

/-- A serving environment where the artifact exists but scoring raises. -/
def envBoom : ServeEnv :=
  { pathExists := fun _ => true,
    runModel := fun _ _ => .error "boom",
    runModelProba := fun _ _ => .error "boom" }

/-- A request body with exactly the 13 required numeric fields. -/
def wineBody : Json := .obj (wineFieldNames.map fun n => (n, Json.num 1))

/-- A request body with the 13 required numeric fields plus one extra
undeclared field. -/
def extraBody : Json :=
  .obj ((wineFieldNames.map fun n => (n, Json.num 1)) ++ [("extra", Json.num 7)])

/-- The ValueError message of `normalize_uploaded_json`. -/
def notRecognizedMsg : String :=
  "Uploaded JSON not recognized. Provide a dict or a list of dicts."

/-- The decoded `WineData` for `wineBody` and `extraBody` (all fields 1). -/
def wineOnes : WineData := ⟨1, 1, 1, 1, 1, 1, 1, 1, 1, 1, 1, 1, 1⟩

/-- The 200 body `/predict` produces under `envOk` for `wineBody`. -/
def okPredictOut : Json :=
  .obj [("prediction", .num (0 : ℕ)), ("class_name", .str "class_0")]

/-- The 200 body `/predict-with-probability` produces under `envOk` for
`wineBody`. -/
def okProbaOut : Json :=
  .obj [("prediction", .num (0 : ℕ)), ("class_name", .str "class_0"),
    ("probabilities",
      .obj [("class_0", .num 1), ("class_1", .num 0), ("class_2", .num 0)])]

/-- An `ItemError`-shaped aggregation entry (spec §3's
`ItemError { message, original_input }`): an object whose first key is
`"error"`, as built by the fallback loop for failed records
(Dashboard.py lines 88, 99, 101). -/
def isItemError : Json → Bool
  | .obj (("error", _) :: _) => true
  | _ => false

/-! ## Theorems -/

/-- C7: `normalize_uploaded_json` maps each of the four accepted JSON
shapes to the normalized form — `{"input_batch": [...]}` and a bare list
normalize to the ordered list of records, `{"input": object}` and a bare
feature object normalize to the single record — and any other JSON value
(neither dict nor list) raises `ValueError`. -/
theorem C7_normalize_shapes :
    (∀ fields l, jlookup "input_batch" fields = some (.arr l) →
        normalize_uploaded_json (.obj fields) = .ok (.arr l))
    ∧ (∀ l, normalize_uploaded_json (.arr l) = .ok (.arr l))
    ∧ (∀ fields o, jlookup "input_batch" fields = none →
        jlookup "input" fields = some (.obj o) →
        normalize_uploaded_json (.obj fields) = .ok (.obj o))
    ∧ (∀ fields, jlookup "input_batch" fields = none →
        jlookup "input" fields = none →
        normalize_uploaded_json (.obj fields) = .ok (.obj fields))
    ∧ (∀ j, (∀ fields, j ≠ .obj fields) → (∀ l, j ≠ .arr l) →
        normalize_uploaded_json j = .error notRecognizedMsg) := by
  refine ⟨fun fields l h => ?_, fun l => rfl, fun fields o h1 h2 => ?_,
    fun fields h1 h2 => ?_, fun j h1 h2 => ?_⟩
  · simp [normalize_uploaded_json, h]
  · simp [normalize_uploaded_json, h1, h2]
  · simp [normalize_uploaded_json, h1, h2]
  · cases j with
    | obj fields => exact absurd rfl (h1 fields)
    | arr l => exact absurd rfl (h2 l)
    | null => rfl
    | bool b => rfl
    | num q => rfl
    | str s => rfl

/-- Witness for C7 at concrete inputs: an `input_batch` wrapper and a bare
number. -/
theorem C7_normalize_shapes_witness :
    normalize_uploaded_json (.obj [("input_batch", .arr [recA])]) =
      .ok (.arr [recA])
    ∧ normalize_uploaded_json (.num 3) = .error notRecognizedMsg := by
  exact ⟨C7_normalize_shapes.1 _ [recA] rfl,
    C7_normalize_shapes.2.2.2.2 _ (fun fields h => Json.noConfusion h)
      (fun l h => Json.noConfusion h)⟩

/-- C10: a dict whose `"input"` key maps to a list (and which carries no
list-valued `"input_batch"`) is returned whole, as if it were a flat
feature record — the list under `"input"` is never extracted; and a
list-valued `"input_batch"` takes precedence over `"input"`. -/
theorem C10_input_list_kept_and_batch_precedence :
    (∀ fields l, (∀ lb, jlookup "input_batch" fields ≠ some (.arr lb)) →
        jlookup "input" fields = some (.arr l) →
        normalize_uploaded_json (.obj fields) = .ok (.obj fields))
    ∧ (∀ fields lb v, jlookup "input_batch" fields = some (.arr lb) →
        jlookup "input" fields = some v →
        normalize_uploaded_json (.obj fields) = .ok (.arr lb)) := by
  constructor
  · intro fields l hnb hi
    cases hb : jlookup "input_batch" fields with
    | none => simp [normalize_uploaded_json, hb, hi]
    | some v =>
        cases v with
        | arr lb => exact absurd hb (hnb lb)
        | null => simp [normalize_uploaded_json, hb, hi]
        | bool b => simp [normalize_uploaded_json, hb, hi]
        | num q => simp [normalize_uploaded_json, hb, hi]
        | str s => simp [normalize_uploaded_json, hb, hi]
        | obj o => simp [normalize_uploaded_json, hb, hi]
  · intro fields lb v hb hi
    simp [normalize_uploaded_json, hb]

/-- Witness for C10 at concrete inputs: a wrapper whose `"input"` is a
list, and a wrapper carrying both keys. -/
theorem C10_input_list_kept_and_batch_precedence_witness :
    normalize_uploaded_json (.obj [("input", .arr [recA])]) =
      .ok (.obj [("input", .arr [recA])])
    ∧ normalize_uploaded_json
        (.obj [("input_batch", .arr [recA]), ("input", .obj [])]) =
      .ok (.arr [recA]) := by
  exact ⟨C10_input_list_kept_and_batch_precedence.1 _ [recA]
      (fun lb h => by simp [jlookup] at h) rfl,
    C10_input_list_kept_and_batch_precedence.2 _ [recA] (.obj []) rfl rfl⟩

/-- Helper: `try_batch_with_fallback` when the optimistic call raises. -/
theorem tbwf_of_exn (api : Api) (records : List Json) (e : String) (te : ℚ)
    (h : api (.arr records) = .exn e te) :
    try_batch_with_fallback api records =
      { success := false, result := .str ("Request failed: " ++ e),
        elapsed := 0, calls := [.arr records] } := by
  unfold try_batch_with_fallback
  rw [h]

/-- Helper: `try_batch_with_fallback` when the optimistic call returns
status 200. -/
theorem tbwf_of_200 (api : Api) (records : List Json) (r : PyResponse)
    (el : ℚ) (h : api (.arr records) = .resp r el)
    (h200 : r.statusCode = 200) :
    try_batch_with_fallback api records =
      { success := true, result := successBody r, elapsed := el,
        calls := [.arr records] } := by
  unfold try_batch_with_fallback
  rw [h]
  simp [h200]

/-- Helper: `try_batch_with_fallback` when the optimistic call returns a
422 carrying the object-expected signature. -/
theorem tbwf_of_sig (api : Api) (records : List Json) (r : PyResponse)
    (el : ℚ) (h : api (.arr records) = .resp r el)
    (h422 : r.statusCode = 422) (hsig : shouldFallback r.jsonBody = true) :
    try_batch_with_fallback api records =
      { success := true,
        result := .arr ((records.map fun rec => itemEntry rec (api rec)).map
          Prod.fst),
        elapsed := el + ((records.map fun rec => itemEntry rec (api rec)).map
          Prod.snd).sum,
        calls := .arr records :: records } := by
  unfold try_batch_with_fallback
  rw [h]
  simp [h422, hsig]

/-- Helper: `try_batch_with_fallback` when the optimistic call returns a
non-200 response that does not trigger the fallback. -/
theorem tbwf_of_err (api : Api) (records : List Json) (r : PyResponse)
    (el : ℚ) (h : api (.arr records) = .resp r el)
    (h200 : ¬ r.statusCode = 200)
    (hns : ¬ (r.statusCode = 422 ∧ shouldFallback r.jsonBody = true)) :
    try_batch_with_fallback api records =
      { success := false, result := errorPayload r, elapsed := el,
        calls := [.arr records] } := by
  unfold try_batch_with_fallback
  rw [h]
  simp [h200, hns]

/-- Helper: what one detail entry of the scan accepts. -/
theorem detailEntryMatches_iff (d : Json) :
    detailEntryMatches d = true ↔
      ∃ dfields m, d = .obj dfields ∧ jlookup "msg" dfields = some m ∧
        containsSub (pyStr m) objectExpectedPat = true := by
  cases d with
  | obj dfields =>
      cases hm : jlookup "msg" dfields with
      | none => simp [detailEntryMatches, hm]
      | some m => simp [detailEntryMatches, hm]
  | null => simp [detailEntryMatches]
  | bool b => simp [detailEntryMatches]
  | num q => simp [detailEntryMatches]
  | str s => simp [detailEntryMatches]
  | arr l => simp [detailEntryMatches]

/-- Helper: the exact shape of decoded 422 bodies that sets
`should_fallback`. -/
theorem shouldFallback_iff (body : Except String Json) :
    shouldFallback body = true ↔
      ∃ fields l, body = .ok (.obj fields) ∧
        jlookup "detail" fields = some (.arr l) ∧
        ∃ d ∈ l, ∃ dfields m, d = .obj dfields ∧
          jlookup "msg" dfields = some m ∧
          containsSub (pyStr m) objectExpectedPat = true := by
  cases body with
  | error e => simp [shouldFallback]
  | ok j =>
      cases j with
      | obj fields =>
          cases hd : jlookup "detail" fields with
          | none => simp [shouldFallback, hd]
          | some v =>
              cases v with
              | arr l =>
                  simp only [shouldFallback, hd, List.any_eq_true,
                    detailEntryMatches_iff]
                  constructor
                  · rintro ⟨d, hdl, hmatch⟩
                    exact ⟨fields, l, rfl, hd, d, hdl, hmatch⟩
                  · rintro ⟨fields', l', heq, hd', d, hdl, hmatch⟩
                    cases heq
                    rw [hd] at hd'
                    cases hd'
                    exact ⟨d, hdl, hmatch⟩
              | null => simp [shouldFallback, hd]
              | bool b => simp [shouldFallback, hd]
              | num q => simp [shouldFallback, hd]
              | str s => simp [shouldFallback, hd]
              | obj o => simp [shouldFallback, hd]
      | null => simp [shouldFallback]
      | bool b => simp [shouldFallback]
      | num q => simp [shouldFallback]
      | str s => simp [shouldFallback]
      | arr l => simp [shouldFallback]

/-- Helper: when `fallbackTriggered` holds. -/
theorem fallbackTriggered_iff (api : Api) (records : List Json) :
    fallbackTriggered api records = true ↔
      ∃ r el, api (.arr records) = .resp r el ∧ r.statusCode = 422 ∧
        shouldFallback r.jsonBody = true := by
  unfold fallbackTriggered
  cases h : api (.arr records) with
  | exn e te => simp
  | resp r el =>
      simp only [Bool.and_eq_true, decide_eq_true_eq]
      constructor
      · rintro ⟨⟨-, h422⟩, hsig⟩
        exact ⟨r, el, rfl, h422, hsig⟩
      · rintro ⟨r', el', heq, h422, hsig⟩
        cases heq
        refine ⟨⟨?_, h422⟩, hsig⟩
        rw [h422]
        decide

/-- Helper: the elapsed time one fallback iteration adds to
`elapsed_total` is exactly the observable elapsed time of that record's
round trip. -/
theorem itemEntry_snd (rec : Json) (c : CallResult) :
    (itemEntry rec c).2 = observedElapsedOf c := by
  cases c with
  | exn e te => rfl
  | resp r el =>
      simp only [itemEntry, observedElapsedOf]
      split
      · rfl
      · split <;> rfl

/-- Helper: pointwise form of `itemEntry_snd` over a record list. -/
theorem map_snd_itemEntry (api : Api) (rs : List Json) :
    (rs.map fun rec => itemEntry rec (api rec)).map Prod.snd =
      rs.map fun p => observedElapsedOf (api p) := by
  induction rs with
  | nil => rfl
  | cons a as ih => simp [itemEntry_snd, ih]

/-- C2: the per-item fallback loop is entered iff the optimistic batch
call returned a 422 whose decoded body has a detail entry whose `msg`
contains the object-expected substring; in every other non-success case —
a 422 without the signature, any other error status, or a transport
failure of the first attempt — the function returns failure immediately
with the received error payload and issues no further calls. -/
theorem C2_fallback_condition (api : Api) (records : List Json) :
    ((try_batch_with_fallback api records).calls =
        Json.arr records ::
          (if fallbackTriggered api records then records else []))
    ∧ (fallbackTriggered api records = true ↔
        ∃ r el, api (.arr records) = .resp r el ∧ r.statusCode = 422 ∧
          shouldFallback r.jsonBody = true)
    ∧ (∀ body, shouldFallback body = true ↔
        ∃ fields l, body = .ok (.obj fields) ∧
          jlookup "detail" fields = some (.arr l) ∧
          ∃ d ∈ l, ∃ dfields m, d = .obj dfields ∧
            jlookup "msg" dfields = some m ∧
            containsSub (pyStr m) objectExpectedPat = true)
    ∧ (∀ r el, api (.arr records) = .resp r el → ¬ r.statusCode = 200 →
        fallbackTriggered api records = false →
        try_batch_with_fallback api records =
          { success := false, result := errorPayload r, elapsed := el,
            calls := [.arr records] })
    ∧ (∀ e te, api (.arr records) = .exn e te →
        try_batch_with_fallback api records =
          { success := false, result := .str ("Request failed: " ++ e),
            elapsed := 0, calls := [.arr records] }) := by
  refine ⟨?_, fallbackTriggered_iff api records, shouldFallback_iff,
    ?_, fun e te h => tbwf_of_exn api records e te h⟩
  · cases h : api (.arr records) with
    | exn e te =>
        rw [tbwf_of_exn api records e te h]
        have hft : fallbackTriggered api records = false := by
          unfold fallbackTriggered
          rw [h]
        simp [hft]
    | resp r el =>
        by_cases h200 : r.statusCode = 200
        · rw [tbwf_of_200 api records r el h h200]
          have hft : fallbackTriggered api records = false := by
            unfold fallbackTriggered
            rw [h]
            simp [h200]
          simp [hft]
        · by_cases hs : r.statusCode = 422 ∧ shouldFallback r.jsonBody = true
          · rw [tbwf_of_sig api records r el h hs.1 hs.2]
            have hft : fallbackTriggered api records = true :=
              (fallbackTriggered_iff api records).2 ⟨r, el, h, hs.1, hs.2⟩
            simp [hft]
          · rw [tbwf_of_err api records r el h h200 hs]
            have hft : fallbackTriggered api records = false := by
              cases hft : fallbackTriggered api records
              · rfl
              · obtain ⟨r', el', heq, h422, hsig⟩ :=
                  (fallbackTriggered_iff api records).1 hft
                rw [h] at heq
                cases heq
                exact absurd ⟨h422, hsig⟩ hs
            simp [hft]
  · intro r el h hne hft
    refine tbwf_of_err api records r el h hne ?_
    intro hc
    have htrue : fallbackTriggered api records = true :=
      (fallbackTriggered_iff api records).2 ⟨r, el, h, hc.1, hc.2⟩
    rw [hft] at htrue
    simp at htrue

/-- Witness for C2 at a concrete input: a 422 without the signature is
returned as an immediate failure with its payload and a single call. -/
theorem C2_fallback_condition_witness :
    try_batch_with_fallback api422NoSig [recA] =
      { success := false, result := errorPayload plain422Resp, elapsed := 3,
        calls := [.arr [recA]] } :=
  (C2_fallback_condition api422NoSig [recA]).2.2.2.1 plain422Resp 3 rfl
    (by decide) (by decide)

/-- C1: with N records and a batch attempt answered by a 422 carrying the
object-expected signature, exactly N+1 calls are issued — the whole-list
payload first, then each record in original order — and the result is a
success list of exactly N entries whose entry at position i is derived
from the record at position i. -/
theorem C1_fallback_call_count_and_order (api : Api) (records : List Json)
    (r : PyResponse) (el : ℚ)
    (hresp : api (.arr records) = .resp r el)
    (h422 : r.statusCode = 422) (hsig : shouldFallback r.jsonBody = true) :
    (try_batch_with_fallback api records).success = true
    ∧ (try_batch_with_fallback api records).calls = Json.arr records :: records
    ∧ (try_batch_with_fallback api records).calls.length = records.length + 1
    ∧ (try_batch_with_fallback api records).result =
        .arr (records.map fun rec => (itemEntry rec (api rec)).1)
    ∧ (records.map fun rec => (itemEntry rec (api rec)).1).length =
        records.length
    ∧ ∀ i, i < records.length →
        (records.map fun rec => (itemEntry rec (api rec)).1).get? i =
          (records.get? i).map fun rec => (itemEntry rec (api rec)).1 := by
  rw [tbwf_of_sig api records r el hresp h422 hsig]
  refine ⟨rfl, rfl, by simp, by simp [List.map_map, Function.comp],
    by simp, fun i _ => by simp [List.get?_map]⟩

/-- Witness for C1 at a concrete input: two records, a rejecting endpoint,
three calls in order, two result entries. -/
theorem C1_fallback_call_count_and_order_witness :
    (try_batch_with_fallback apiReject [recA, recB]).success = true
    ∧ (try_batch_with_fallback apiReject [recA, recB]).calls =
        [Json.arr [recA, recB], recA, recB]
    ∧ (try_batch_with_fallback apiReject [recA, recB]).result =
        .arr [okBody, okBody] := by
  obtain ⟨h1, h2, -, h4, -, -⟩ :=
    C1_fallback_call_count_and_order apiReject [recA, recB] sigResp 3 rfl rfl
      (by decide)
  exact ⟨h1, h2, h4.trans rfl⟩

/-- C3: in the fallback loop every record whose individual call fails —
transport failure or non-success status — yields an ItemError-shaped entry
at that record's position (carrying the original record for transport
failures), entries depend only on their own record's call, and the overall
operation still returns success with a list of length N. -/
theorem C3_item_failures_isolated (api : Api) (records : List Json)
    (r : PyResponse) (el : ℚ)
    (hresp : api (.arr records) = .resp r el)
    (h422 : r.statusCode = 422) (hsig : shouldFallback r.jsonBody = true) :
    (try_batch_with_fallback api records).success = true
    ∧ (try_batch_with_fallback api records).result =
        .arr (records.map fun rec => (itemEntry rec (api rec)).1)
    ∧ (records.map fun rec => (itemEntry rec (api rec)).1).length =
        records.length
    ∧ (∀ i rec, records.get? i = some rec →
        (records.map fun rec => (itemEntry rec (api rec)).1).get? i =
          some (itemEntry rec (api rec)).1)
    ∧ (∀ rec e te, api rec = .exn e te →
        (itemEntry rec (api rec)).1 =
          .obj [("error", .str ("Request failed: " ++ e)), ("input", rec)]
        ∧ isItemError (itemEntry rec (api rec)).1 = true)
    ∧ (∀ rec sr sel, api rec = .resp sr sel → ¬ sr.statusCode = 200 →
        isItemError (itemEntry rec (api rec)).1 = true) := by
  rw [tbwf_of_sig api records r el hresp h422 hsig]
  refine ⟨rfl, by simp [List.map_map, Function.comp], by simp, ?_, ?_, ?_⟩
  · intro i rec hi
    rw [List.get?_map, hi]
    rfl
  · intro rec e te h
    rw [h]
    exact ⟨rfl, rfl⟩
  · intro rec sr sel h hne
    rw [h]
    cases hb : sr.jsonBody with
    | ok j => simp [itemEntry, hne, hb, isItemError]
    | error e2 => simp [itemEntry, hne, hb, isItemError]

/-- Witness for C3 at a concrete input: three records of which one
transport-fails and one gets a 500; the result still has three entries in
order, the failed ones ItemError-shaped. -/
theorem C3_item_failures_isolated_witness :
    (try_batch_with_fallback apiMixed [recA, recT, recE]).success = true
    ∧ (try_batch_with_fallback apiMixed [recA, recT, recE]).result =
        .arr [okBody,
          .obj [("error", .str "Request failed: timed out"), ("input", recT)],
          .obj [("error", .obj [("detail", .str "err")]),
                ("status", .num 500)]]
    ∧ (itemEntry recT (apiMixed recT)).1 =
        .obj [("error", .str "Request failed: timed out"), ("input", recT)]
    ∧ isItemError (itemEntry recE (apiMixed recE)).1 = true := by
  obtain ⟨h1, h2, -, -, h5, h6⟩ :=
    C3_item_failures_isolated apiMixed [recA, recT, recE] sigResp 3 rfl rfl
      (by decide)
  exact ⟨h1, h2.trans rfl, (h5 recT "timed out" 7 rfl).1,
    h6 recE err500Resp 4 rfl (by decide)⟩

/-- C4 as stated is refuted: a round trip that ends in a transport failure
contributes nothing to the reported elapsed time, because `call_api`
raises before `elapsed` is returned — here the optimistic attempt spends 5
seconds timing out and the function reports 0. -/
theorem C4_counterexample :
    try_batch_with_fallback apiDown [recA] =
      { success := false,
        result := .str "Request failed: connection refused",
        elapsed := 0, calls := [.arr [recA]] }
    ∧ totalWallClock apiDown [recA] = 5
    ∧ (try_batch_with_fallback apiDown [recA]).elapsed ≠
        totalWallClock apiDown [recA] := by
  have h2 : totalWallClock apiDown [recA] = 5 := by
    simp [totalWallClock, try_batch_with_fallback, apiDown, trueElapsedOf]
  refine ⟨rfl, h2, ?_⟩
  rw [h2]
  show (0 : ℚ) ≠ 5
  norm_num

/-- C4 amended: on every code path the returned elapsed time equals the
sum, over the round trips actually made, of the elapsed time the code
could observe — the measured duration for calls that returned a response,
and zero for calls that raised (transport failure or timeout). -/
theorem C4_elapsed_sums_observed (api : Api) (records : List Json) :
    (try_batch_with_fallback api records).elapsed =
      (((try_batch_with_fallback api records).calls).map
        fun p => observedElapsedOf (api p)).sum := by
  cases h : api (.arr records) with
  | exn e te =>
      rw [tbwf_of_exn api records e te h]
      simp [observedElapsedOf, h]
  | resp r el =>
      by_cases h200 : r.statusCode = 200
      · rw [tbwf_of_200 api records r el h h200]
        simp [observedElapsedOf, h]
      · by_cases hs : r.statusCode = 422 ∧ shouldFallback r.jsonBody = true
        · rw [tbwf_of_sig api records r el h hs.1 hs.2]
          rw [map_snd_itemEntry api records]
          simp [h, observedElapsedOf]
        · rw [tbwf_of_err api records r el h h200 hs]
          simp [observedElapsedOf, h]

/-- C9 as stated is refuted on the fallback path: with empty input the
optimistic call does fire with the empty list, but when the endpoint
answers it with a 422 carrying the object-expected signature, that
response is not passed through — the vacuous fallback loop runs and the
function returns success with an empty list instead of the received error
payload. -/
theorem C9_counterexample :
    apiReject (.arr []) = .resp sigResp 3
    ∧ errorPayload sigResp = sigDetailBody
    ∧ try_batch_with_fallback apiReject [] =
        { success := true, result := .arr [], elapsed := 3,
          calls := [.arr []] }
    ∧ (try_batch_with_fallback apiReject []).result ≠ sigDetailBody := by
  have h3 : try_batch_with_fallback apiReject [] =
      { success := true, result := .arr [], elapsed := 3,
        calls := [.arr []] } := by
    rw [tbwf_of_sig apiReject [] sigResp 3 rfl rfl (by decide)]
    simp
  refine ⟨rfl, rfl, h3, ?_⟩
  rw [h3]
  intro h
  exact Json.noConfusion h

/-- C9 amended: for an empty input sequence the optimistic batch call
still fires with the empty list and no empty-input special-casing exists —
the generic handling applies: a 200 body is returned as-is, a non-fallback
error is returned as failure with the received payload, a transport
failure as failure, and a 422 bearing the object-expected signature
triggers the (vacuous) fallback, returning success with the empty list. -/
theorem C9_empty_input (api : Api) :
    ((try_batch_with_fallback api []).calls).head? = some (.arr [])
    ∧ (∀ r el, api (.arr []) = .resp r el → r.statusCode = 200 →
        try_batch_with_fallback api [] =
          { success := true, result := successBody r, elapsed := el,
            calls := [.arr []] })
    ∧ (∀ r el, api (.arr []) = .resp r el → r.statusCode = 422 →
        shouldFallback r.jsonBody = true →
        try_batch_with_fallback api [] =
          { success := true, result := .arr [], elapsed := el,
            calls := [.arr []] })
    ∧ (∀ r el, api (.arr []) = .resp r el → ¬ r.statusCode = 200 →
        ¬ (r.statusCode = 422 ∧ shouldFallback r.jsonBody = true) →
        try_batch_with_fallback api [] =
          { success := false, result := errorPayload r, elapsed := el,
            calls := [.arr []] })
    ∧ (∀ e te, api (.arr []) = .exn e te →
        try_batch_with_fallback api [] =
          { success := false, result := .str ("Request failed: " ++ e),
            elapsed := 0, calls := [.arr []] }) := by
  refine ⟨?_, ?_, ?_, fun r el h hne hns => tbwf_of_err api [] r el h hne hns,
    fun e te h => tbwf_of_exn api [] e te h⟩
  · cases h : api (.arr []) with
    | exn e te => rw [tbwf_of_exn api [] e te h]; rfl
    | resp r el =>
        by_cases h200 : r.statusCode = 200
        · rw [tbwf_of_200 api [] r el h h200]; rfl
        · by_cases hs : r.statusCode = 422 ∧ shouldFallback r.jsonBody = true
          · rw [tbwf_of_sig api [] r el h hs.1 hs.2]; rfl
          · rw [tbwf_of_err api [] r el h h200 hs]; rfl
  · intro r el h h200
    exact tbwf_of_200 api [] r el h h200
  · intro r el h h422 hsig
    rw [tbwf_of_sig api [] r el h h422 hsig]
    simp

/-- Witness for the amended C9 at a concrete input: the rejecting endpoint
answers the empty batch with the signature 422 and the outcome is success
with the empty list. -/
theorem C9_empty_input_witness :
    try_batch_with_fallback apiReject [] =
      { success := true, result := .arr [], elapsed := 3,
        calls := [.arr []] } :=
  (C9_empty_input apiReject).2.2.1 sigResp 3 rfl rfl (by decide)

/-- C6: a list body sent to the single-record endpoints yields a 422 whose
detail includes a msg carrying the object-expected signature — the exact
shape the client's fallback detection (`shouldFallback`) matches on. -/
theorem C6_list_body_gives_signature (env : ServeEnv) (l : List Json) :
    predict_endpoint env (.arr l) = (422, sigDetailBody)
    ∧ predict_with_probability_endpoint env (.arr l) = (422, sigDetailBody)
    ∧ containsSub objectExpectedMsg objectExpectedPat = true
    ∧ shouldFallback (.ok sigDetailBody) = true := by
  exact ⟨rfl, rfl, by decide, by decide⟩

/-- Helper: strings never looked up. -/
theorem jlookup_eq_none_of_no_key (n : String) (l : List (String × Json))
    (h : ∀ kv ∈ l, kv.1 ≠ n) : jlookup n l = none := by
  induction l with
  | nil => rfl
  | cons kv rest ih =>
      obtain ⟨k, v⟩ := kv
      simp only [jlookup]
      rw [if_neg (h (k, v) (List.mem_cons_self (k, v) rest))]
      exact ih fun kv2 hm => h kv2 (List.mem_cons_of_mem (k, v) hm)

/-- Helper: appending fields with other keys does not change a lookup. -/
theorem jlookup_append (n : String) (fields extras : List (String × Json))
    (hx : ∀ kv ∈ extras, kv.1 ≠ n) :
    jlookup n (fields ++ extras) = jlookup n fields := by
  induction fields with
  | nil =>
      simp only [List.nil_append, jlookup]
      exact jlookup_eq_none_of_no_key n extras hx
  | cons kv rest ih =>
      obtain ⟨k, v⟩ := kv
      simp only [List.cons_append, jlookup]
      by_cases hk : k = n
      · rw [if_pos hk, if_pos hk]
      · rw [if_neg hk, if_neg hk]
        exact ih

/-- Helper: `filterMap` congruence over a list. -/
theorem filterMap_congr_mem {α β : Type} (l : List α) (f g : α → Option β)
    (h : ∀ a ∈ l, f a = g a) : l.filterMap f = l.filterMap g := by
  induction l with
  | nil => rfl
  | cons a as ih =>
      simp only [List.filterMap_cons]
      rw [h a (List.mem_cons_self a as),
        ih fun b hb => h b (List.mem_cons_of_mem a hb)]

/-- Helper: undeclared extra keys do not change pydantic field
validation. -/
theorem fieldErrors_append_extras (fields extras : List (String × Json))
    (hx : ∀ kv ∈ extras, kv.1 ∉ wineFieldNames) :
    fieldErrors (fields ++ extras) = fieldErrors fields := by
  unfold fieldErrors
  refine filterMap_congr_mem wineFieldNames _ _ fun n hn => ?_
  rw [jlookup_append n fields extras fun kv hm => ?_]
  intro hkn
  exact hx kv hm (hkn ▸ hn)

/-- Helper: what `predict_with_prob` guarantees on success. -/
theorem predict_with_prob_ok (env : ServeEnv) (X : List (List ℚ))
    (r : ProbResult) (h : predict_with_prob env X = .ok r) :
    r.prediction < get_target_names.length
    ∧ get_target_names.get? r.prediction = some r.class_name := by
  unfold predict_with_prob at h
  split at h
  · cases h
  · split at h
    · cases h
    · split at h
      · rename_i p0 row hp0 hrow
        split at h
        · cases h
        · rename_i cn hget
          split at h
          · cases h
            refine ⟨?_, hget⟩
            by_contra hc
            rw [List.get?_eq_none.2 (le_of_not_lt hc)] at hget
            cases hget
          · cases h
      · cases h

/-- C8: every successful (status-200) response of either endpoint carries
a `class_name` equal to the entry of the fixed ordered class-label list at
position `class_index`, and `class_index` is a valid position in that
list. -/
theorem C8_class_name_matches_index (env : ServeEnv) (body out : Json) :
    (predict_endpoint env body = (200, out) →
      ∃ (pn : ℕ) (cn : String),
        out = .obj [("prediction", .num pn), ("class_name", .str cn)]
        ∧ pn < get_target_names.length
        ∧ get_target_names.get? pn = some cn)
    ∧ (predict_with_probability_endpoint env body = (200, out) →
      ∃ (pn : ℕ) (cn : String) (probs : List (String × ℚ)),
        out = .obj [("prediction", .num pn), ("class_name", .str cn),
          ("probabilities", .obj (probs.map fun p => (p.1, Json.num p.2)))]
        ∧ pn < get_target_names.length
        ∧ get_target_names.get? pn = some cn) := by
  constructor
  · intro h
    unfold predict_endpoint at h
    split at h
    · exact absurd h (by simp)
    · split at h
      · exact absurd h (by simp)
      · split at h
        · exact absurd h (by simp)
        · split at h
          · exact absurd h (by simp)
          · rename_i cn hget
            injection h with h1 h2
            subst h2
            refine ⟨_, _, rfl, ?_, hget⟩
            by_contra hc
            rw [List.get?_eq_none.2 (le_of_not_lt hc)] at hget
            cases hget
  · intro h
    unfold predict_with_probability_endpoint at h
    split at h
    · exact absurd h (by simp)
    · split at h
      · exact absurd h (by simp)
      · rename_i r hr
        injection h with h1 h2
        subst h2
        obtain ⟨hlt, hget⟩ := predict_with_prob_ok env _ r hr
        exact ⟨r.prediction, r.class_name, r.probabilities, rfl, hlt, hget⟩

/-- Witness for C8 at a concrete input: a well-formed record under a
working environment, for both endpoints. -/
theorem C8_class_name_matches_index_witness :
    (∃ (pn : ℕ) (cn : String),
      okPredictOut = .obj [("prediction", .num pn), ("class_name", .str cn)]
      ∧ pn < get_target_names.length
      ∧ get_target_names.get? pn = some cn)
    ∧ (∃ (pn : ℕ) (cn : String) (probs : List (String × ℚ)),
      okProbaOut = .obj [("prediction", .num pn), ("class_name", .str cn),
        ("probabilities", .obj (probs.map fun p => (p.1, Json.num p.2)))]
      ∧ pn < get_target_names.length
      ∧ get_target_names.get? pn = some cn) :=
  ⟨(C8_class_name_matches_index envOk wineBody okPredictOut).1 rfl,
   (C8_class_name_matches_index envOk wineBody okProbaOut).2 rfl⟩

/-- C5 as stated is refuted: a record that is not exactly the 13 required
numeric fields — here all 13 plus one extra undeclared field — is not
rejected with a ValidationError; pydantic's default ignores undeclared
keys, the record decodes, and the call succeeds with status 200. -/
theorem C5_counterexample :
    isExactly13NumericRecord extraBody = false
    ∧ validateWineBody extraBody = .ok wineOnes
    ∧ (predict_endpoint envOk extraBody).1 = 200 := by
  exact ⟨by decide, rfl, rfl⟩

/-- C5 amended: `predict` fails with a ValidationError (422 with the
pydantic detail list) exactly when the record fails decoding — a
non-object body, or a required field missing or non-numeric; extra
undeclared fields are ignored, not rejected.  When the record decodes, a
model artifact absent from every known path yields an error carrying the
fixed model-not-found message, and any other scoring failure yields an
error carrying that exception's text — both surfaced with status 500 and
distinguished by their message. -/
theorem C5_error_taxonomy (env : ServeEnv) (body : Json) :
    ((∃ errs, validateWineBody body = .error errs) ↔
      (∀ fields, body ≠ .obj fields) ∨
        ∃ fields, body = .obj fields ∧ fieldErrors fields ≠ [])
    ∧ (∀ errs, validateWineBody body = .error errs →
        predict_endpoint env body = (422, validationErrorBody errs))
    ∧ (∀ fields extras, (∀ kv ∈ extras, kv.1 ∉ wineFieldNames) →
        fieldErrors (fields ++ extras) = fieldErrors fields)
    ∧ (∀ w, validateWineBody body = .ok w →
        (∀ p ∈ possible_paths, env.pathExists p = false) →
        predict_endpoint env body =
          (500, .obj [("detail", .str modelNotFoundMsg)]))
    ∧ (∀ w p e, validateWineBody body = .ok w →
        possible_paths.find? env.pathExists = some p →
        env.runModel p [featuresOf w] = .error e →
        predict_endpoint env body = (500, .obj [("detail", .str e)])) := by
  refine ⟨?_, ?_, fieldErrors_append_extras, ?_, ?_⟩
  · constructor
    · rintro ⟨errs, herrs⟩
      cases body with
      | obj fields =>
          right
          refine ⟨fields, rfl, ?_⟩
          intro hfe
          simp [validateWineBody, hfe] at herrs
      | null => exact Or.inl fun fields h => Json.noConfusion h
      | bool b => exact Or.inl fun fields h => Json.noConfusion h
      | num q => exact Or.inl fun fields h => Json.noConfusion h
      | str s => exact Or.inl fun fields h => Json.noConfusion h
      | arr l => exact Or.inl fun fields h => Json.noConfusion h
    · rintro (hno | ⟨fields, rfl, hfe⟩)
      · cases body with
        | obj fields => exact absurd rfl (hno fields)
        | null => exact ⟨_, rfl⟩
        | bool b => exact ⟨_, rfl⟩
        | num q => exact ⟨_, rfl⟩
        | str s => exact ⟨_, rfl⟩
        | arr l => exact ⟨_, rfl⟩
      · cases hfes : fieldErrors fields with
        | nil => exact absurd hfes hfe
        | cons e es =>
            refine ⟨e :: es, ?_⟩
            simp [validateWineBody, hfes]
  · intro errs herrs
    unfold predict_endpoint
    rw [herrs]
  · intro w hw hp
    have hfind : possible_paths.find? env.pathExists = none := by
      rw [List.find?_eq_none]
      intro p hmem
      rw [hp p hmem]
      exact Bool.false_ne_true
    unfold predict_endpoint
    rw [hw]
    unfold predict_data
    rw [hfind]
  · intro w p e hw hfind hrun
    unfold predict_endpoint
    rw [hw]
    unfold predict_data
    rw [hfind]
    simp only [hrun]

/-- Witness for the amended C5 at concrete inputs: a list body is a 422,
a missing artifact is a 500 with the model-not-found message, a scoring
exception is a 500 with its text. -/
theorem C5_error_taxonomy_witness :
    predict_endpoint envOk (.arr []) =
      (422, validationErrorBody [⟨["body"], objectExpectedMsg⟩])
    ∧ predict_endpoint envMissing wineBody =
        (500, .obj [("detail", .str modelNotFoundMsg)])
    ∧ predict_endpoint envBoom wineBody =
        (500, .obj [("detail", .str "boom")]) :=
  ⟨(C5_error_taxonomy envOk (.arr [])).2.1 _ rfl,
   (C5_error_taxonomy envMissing wineBody).2.2.2.1 wineOnes rfl fun _ _ => rfl,
   (C5_error_taxonomy envBoom wineBody).2.2.2.2 wineOnes "model/wine_model.pkl"
     "boom" rfl rfl rfl⟩
